import Mathlib

/-!
Verification of the session/token lifecycle and fixed-window rate limiter of
the affitti backend. The definitions below are a shallow embedding of
`app/middlewares/rate_limit.py`, `app/routers/auth.py` and
`app/core/security.py`. Machine strings are modelled as Lean `String`s,
Python floats (`time.time()`) as rationals, Python unbounded ints as `Int`,
and Python truthiness of strings/options is made explicit. Outbound HTTP
calls to the identity provider are modelled as oracle functions from the
forwarded request data to an upstream outcome (a status/body response or a
network failure, mirroring `requests.RequestException`). JSON bodies are
modelled as records carrying exactly the fields the handlers read; bodies
are assumed to parse as JSON (parse failures are outside the modelled
claims).
-/

/-- Python `int(x)` on a float/rational: truncation toward zero. -/
def pyInt (q : ℚ) : Int := if 0 ≤ q then ⌊q⌋ else ⌈q⌉

/-- Python truthiness filter for an optional string: `None` and `""` are
falsy, any other string is kept. -/
def pyTruthyStr (o : Option String) : Option String :=
  match o with
  | some s => if s = "" then none else some s
  | none => none

/-- Python `a or b or dflt` over optional strings, as used for upstream
error-message extraction (`j.get("error_description") or j.get("message")
or msg`): first truthy value, else the default. -/
def pyFirstTruthy (xs : List (Option String)) (dflt : String) : String :=
  match xs with
  | [] => dflt
  | x :: rest =>
    match pyTruthyStr x with
    | some s => s
    | none => pyFirstTruthy rest dflt

/-- Python `s.lower()`, character by character. -/
def pyLower (s : String) : String := ⟨s.data.map Char.toLower⟩

/-- Python `s.startswith(p)`. -/
def pyStartsWith (s p : String) : Bool := p.data.isPrefixOf s.data

/-- Python `s.strip()`: whitespace removed from both ends. -/
def pyStrip (s : String) : String :=
  ⟨((s.data.dropWhile Char.isWhitespace).reverse.dropWhile Char.isWhitespace).reverse⟩

/-- Split a character list at the first occurrence of `sep`, returning the
parts before and after it, or nothing when `sep` does not occur. -/
def breakAtChar (sep : Char) : List Char → Option (List Char × List Char)
  | [] => none
  | c :: rest =>
    if c = sep then some ([], rest)
    else
      match breakAtChar sep rest with
      | some (a, b) => some (c :: a, b)
      | none => none

/-- Python `s.partition(sep)` for a one-character separator, reduced to the
pair (before the first occurrence, after it); when `sep` does not occur the
second component is `""`, exactly as in Python. -/
def pyPartitionChar (sep : Char) (s : String) : String × String :=
  match breakAtChar sep s.data with
  | some (a, b) => (⟨a⟩, ⟨b⟩)
  | none => (s, "")

/-- Python `s.partition(" ")`, the form used on Authorization headers. -/
def pyPartitionSpace (s : String) : String × String := pyPartitionChar ' ' s

/-- Python `s.split(sep)` for a one-character separator. -/
def splitOnChar (sep : Char) : List Char → List (List Char)
  | [] => [[]]
  | c :: rest =>
    match splitOnChar sep rest with
    | [] => [[c]]
    | g :: gs => if c = sep then [] :: g :: gs else (c :: g) :: gs

/-- Parse a non-empty run of decimal digits. -/
def parseDigits (cs : List Char) : Option Nat :=
  match cs with
  | [] => none
  | _ =>
    cs.foldl
      (fun acc c => acc.bind (fun n => if c.isDigit then some (n * 10 + (c.toNat - 48)) else none))
      (some 0)

/-- Python `int(s)` on environment strings: optional sign then digits. -/
def pyToInt? (s : String) : Option Int :=
  match s.data with
  | '-' :: rest => (parseDigits rest).map (fun n => -(n : Int))
  | cs => (parseDigits cs).map (fun n => (n : Int))

/-- A process environment: variable name to value.  `os.getenv(k)`. -/
def getenv (env : List (String × String)) (k : String) : Option String :=
  env.lookup k

/-- `os.getenv(k, d)`. -/
def getenvD (env : List (String × String)) (k d : String) : String :=
  (getenv env k).getD d

/- ===================== Rate limiter (app/middlewares/rate_limit.py) ===================== -/

/-- Key of the bucket map: `(ip, path)`. -/
abbrev RLKey := String × String

/-- The `_BUCKETS` map `(ip, route) -> (reset_ts, count)`, modelled as an
association list with Python-dict update semantics. -/
abbrev Buckets := List (RLKey × (ℚ × Int))

/-- Dictionary read `_BUCKETS.get(key)`. -/
def bucketsGet (b : Buckets) (k : RLKey) : Option (ℚ × Int) :=
  match b with
  | [] => none
  | (k', v') :: rest => if k' = k then some v' else bucketsGet rest k

/-- Dictionary write `_BUCKETS[key] = v`. -/
def bucketsSet (b : Buckets) (k : RLKey) (v : ℚ × Int) : Buckets :=
  match b with
  | [] => [(k, v)]
  | (k', v') :: rest => if k' = k then (k, v) :: rest else (k', v') :: bucketsSet rest k v

/-- Configuration of the limiter: `RL_WINDOW_SEC`, `RL_MAX_REQ`, `RL_PATHS`. -/
structure RLConfig where
  windowSec : Int
  maxReq : Int
  protectedPaths : List String
deriving DecidableEq

/-- Configuration derived from the environment with the source defaults
(window 60s, max 10, paths `/auth/login,/auth/register,/auth/forgot`,
comma-split and stripped). -/
def rlConfigOfEnv (env : List (String × String)) : RLConfig :=
  { windowSec := ((getenv env "RL_WINDOW_SEC").bind pyToInt?).getD 60
    maxReq := ((getenv env "RL_MAX_REQ").bind pyToInt?).getD 10
    protectedPaths :=
      (splitOnChar ',' (getenvD env "RL_PATHS" "/auth/login,/auth/register,/auth/forgot").data).map
        (fun g => pyStrip ⟨g⟩) }

/-- `any(path.startswith(p) for p in PROTECTED_PATHS)`. -/
def rlPathProtected (cfg : RLConfig) (path : String) : Bool :=
  cfg.protectedPaths.any (fun p => pyStartsWith path p)

/-- Observable outcome of one pass through the middleware: bypass for
unprotected paths, a 429 rejection carrying the remaining-seconds hint
`int(reset - now)`, or forwarding with the three `X-RateLimit-*` header
values (limit, remaining, reset). -/
inductive RLResult where
  | bypass
  | rejected (retryAfter : Int)
  | forwarded (limit remaining reset : Int)
deriving DecidableEq

/-- The outcome the middleware produces for a counted request given the
bucket's reset time `R` and the already-incremented count `n` at time `t`
(the tail of `rate_limit_middleware` after the bucket update). -/
def mkOutcome (cfg : RLConfig) (R : ℚ) (n : Int) (t : ℚ) : RLResult :=
  if n > cfg.maxReq then .rejected (pyInt (R - t))
  else .forwarded cfg.maxReq (max 0 (cfg.maxReq - n)) (pyInt R)

/-- One pass of `rate_limit_middleware` over the shared bucket map, for a
request from `ip` to `path` at time `now`. -/
def rate_limit_middleware (cfg : RLConfig) (st : Buckets) (ip path : String) (now : ℚ) :
    RLResult × Buckets :=
  if ¬ rlPathProtected cfg path then (.bypass, st)
  else
    let key : RLKey := (ip, path)
    let rc := (bucketsGet st key).getD (now + (cfg.windowSec : ℚ), 0)
    let rc := if now > rc.1 then (now + (cfg.windowSec : ℚ), (0 : Int)) else rc
    let reset := rc.1
    let count := rc.2 + 1
    let st' := bucketsSet st key (reset, count)
    if count > cfg.maxReq then (.rejected (pyInt (reset - now)), st')
    else (.forwarded cfg.maxReq (max 0 (cfg.maxReq - count)) (pyInt reset), st')

/-- Process a sequence of requests (all from `ip` to `path`, at the given
times) through the middleware, threading the bucket map. -/
def rlRun (cfg : RLConfig) (ip path : String) : List ℚ → Buckets → List RLResult × Buckets
  | [], st => ([], st)
  | t :: ts, st =>
    let s := rate_limit_middleware cfg st ip path t
    let rest := rlRun cfg ip path ts s.2
    (s.1 :: rest.1, rest.2)

/-- Expected outcomes of a run that stays inside one window with reset time
`R`, starting from stored count `c`. -/
def outcomesFrom (cfg : RLConfig) (R : ℚ) (c : Int) : List ℚ → List RLResult
  | [] => []
  | t :: ts => mkOutcome cfg R (c + 1) t :: outcomesFrom cfg R (c + 1) ts

/- ===================== Cookie layer (app/routers/auth.py, config at lines 36-42) ===================== -/

/-- Cookie configuration read from the environment in `auth.py`:
`REFRESH_COOKIE_NAME`, `COOKIE_SECURE`, `COOKIE_SAMESITE`, `COOKIE_DOMAIN`,
`REFRESH_MAX_AGE`. -/
structure CookieCfg where
  refreshCookieName : String
  cookieSecure : Bool
  cookieSamesite : String
  cookieDomain : Option String
  refreshMaxAge : Int
deriving DecidableEq

/-- `COOKIE_PATH = "/auth"` (module constant). -/
def COOKIE_PATH : String := "/auth"

/-- The environment-derived cookie configuration, with the source defaults
(`refresh_token`, secure false, samesite `lax`, no domain, 7-day max age).
Note that no environment name (`ENV`) is consulted anywhere here. -/
def cookieCfgOfEnv (env : List (String × String)) : CookieCfg :=
  { refreshCookieName := getenvD env "REFRESH_COOKIE_NAME" "refresh_token"
    cookieSecure := pyLower (getenvD env "COOKIE_SECURE" "false") = "true"
    cookieSamesite := getenvD env "COOKIE_SAMESITE" "lax"
    cookieDomain := getenv env "COOKIE_DOMAIN"
    refreshMaxAge := ((getenv env "REFRESH_MAX_AGE").bind pyToInt?).getD (60 * 60 * 24 * 7) }

/-- Cookie configuration with every default. -/
def defaultCookieCfg : CookieCfg := cookieCfgOfEnv []

/-- One `Set-Cookie` instruction as issued through the response object. -/
structure SetCookie where
  key : String
  value : String
  httponly : Bool
  secure : Bool
  samesite : String
  domain : Option String
  path : String
  maxAge : Option Int
deriving DecidableEq

/-- `_set_refresh_cookie`: writes the refresh token into the configured
cookie; `Secure` is the configured flag, forced on when the configured
SameSite (lowercased) is `none`; `HttpOnly` is always set. -/
def _set_refresh_cookie (cfg : CookieCfg) (refresh_token : String) : SetCookie :=
  { key := cfg.refreshCookieName
    value := refresh_token
    httponly := true
    secure := cfg.cookieSecure || pyLower cfg.cookieSamesite = "none"
    samesite := cfg.cookieSamesite
    domain := cfg.cookieDomain
    path := COOKIE_PATH
    maxAge := some cfg.refreshMaxAge }

/-- `response.delete_cookie(key, domain, path)`: the HTTP framework emits a
deletion instruction, i.e. a `Set-Cookie` with empty value and zero max age
(framework defaults: not secure, not http-only, samesite `lax`). -/
def deleteCookie (key : String) (domain : Option String) (path : String) : SetCookie :=
  { key := key
    value := ""
    httponly := false
    secure := false
    samesite := "lax"
    domain := domain
    path := path
    maxAge := some 0 }

/-- `_clear_refresh_cookie`. -/
def _clear_refresh_cookie (cfg : CookieCfg) : SetCookie :=
  deleteCookie cfg.refreshCookieName cfg.cookieDomain COOKIE_PATH

/- ===================== Session endpoints (app/routers/auth.py) ===================== -/

/-- `(e or "").strip().lower()`. -/
def norm_email (e : String) : String := pyLower (pyStrip e)

/-- Outcome of one outbound call to the identity provider: a parsed
response with its status code, or a network failure
(`requests.RequestException`) carrying the exception text. -/
inductive Upstream (β : Type) where
  | resp (status : Nat) (body : β)
  | netFail (err : String)

/-- Fields the login handler reads from the password-grant response body.
On a 200 response `access_token` and `refresh_token` are read by direct
indexing; on an error response only the two message fields are consulted. -/
structure LoginBody where
  access_token : String
  refresh_token : String
  expires_in : Option Int
  error_description : Option String
  message : Option String
deriving DecidableEq

/-- Fields the refresh handler reads from the refresh-grant response body:
`refresh_token` is read with `.get` and so may be absent. -/
structure RefreshBody where
  access_token : String
  refresh_token : Option String
  expires_in : Option Int
  error_description : Option String
  message : Option String
deriving DecidableEq

/-- The `TokenOut` response model. -/
structure TokenOut where
  access_token : String
  refresh_token : Option String
  token_type : String
  expires_in : Option Int
deriving DecidableEq

/-- Result of a request handler: a value together with the `Set-Cookie`
instructions accumulated on the response, or an `HTTPException` with its
status code and detail. -/
inductive EndpointResult (α : Type) where
  | ok (value : α) (cookies : List SetCookie)
  | fail (status : Nat) (detail : String)
deriving DecidableEq

/-- The cookie instructions carried by a handler result. -/
def EndpointResult.cookiesOf {α : Type} : EndpointResult α → List SetCookie
  | .ok _ cks => cks
  | .fail _ _ => []

/-- Result of `login`, together with the credentials actually forwarded to
the identity provider's password-grant endpoint. -/
structure LoginResult where
  forwardedEmail : String
  forwardedPassword : String
  result : EndpointResult TokenOut

/-- `POST /auth/login`: normalizes the email, forwards credentials; on a
200 response sets the refresh cookie and returns the token pair; on any
other status raises 401; on a network failure raises 502. -/
def login (cfg : CookieCfg) (emailRaw password : String)
    (upstream : String → String → Upstream LoginBody) : LoginResult :=
  let email := norm_email emailRaw
  { forwardedEmail := email
    forwardedPassword := password
    result :=
      match upstream email password with
      | .netFail e => .fail 502 ("Login error: " ++ e)
      | .resp s b =>
        if s ≠ 200 then
          .fail 401 (pyFirstTruthy [b.error_description, b.message] "Email o password non valide")
        else
          .ok { access_token := b.access_token
                refresh_token := some b.refresh_token
                token_type := "bearer"
                expires_in := b.expires_in }
            [_set_refresh_cookie cfg b.refresh_token] }

/-- `token = refresh_token or request.cookies.get(REFRESH_COOKIE_NAME)`
followed by the `if not token` truthiness test: the body field wins when
truthy, else the configured refresh cookie when truthy. -/
def refresh_request_token (cfg : CookieCfg) (bodyToken : Option String)
    (cookies : List (String × String)) : Option String :=
  match pyTruthyStr bodyToken with
  | some t => some t
  | none => pyTruthyStr (cookies.lookup cfg.refreshCookieName)

/-- `POST /auth/refresh`: resolves the refresh token (body field first,
else cookie), 401 when absent; forwards to the refresh grant; on 200
returns the new pair and rewrites the refresh cookie exactly when the
response carried a truthy `refresh_token`; non-200 raises 401, network
failure 502. -/
def refresh (cfg : CookieCfg) (bodyToken : Option String) (cookies : List (String × String))
    (upstream : String → Upstream RefreshBody) : EndpointResult TokenOut :=
  match refresh_request_token cfg bodyToken cookies with
  | none => .fail 401 "Refresh token mancante"
  | some token =>
    match upstream token with
    | .netFail e => .fail 502 ("Refresh error: " ++ e)
    | .resp s b =>
      if s ≠ 200 then
        .fail 401 (pyFirstTruthy [b.error_description, b.message] "Refresh token non valido")
      else
        .ok { access_token := b.access_token
              refresh_token := b.refresh_token
              token_type := "bearer"
              expires_in := b.expires_in }
          (match pyTruthyStr b.refresh_token with
           | some nr => [_set_refresh_cookie cfg nr]
           | none => [])

/-- The request state visible to `GET /auth/me`: the `Authorization` header
value (FastAPI injects `""` when the header is absent) and the request's
cookie jar (which the handler, as written, never reads). -/
structure MeRequest where
  authorization : String
  cookies : List (String × String)

/-- `GET /auth/me`: requires the Authorization header to start
case-insensitively with `"bearer "`; takes the part after the first space
as the token (`authorization.split(" ", 1)[1]`); forwards it to the
provider's current-user endpoint and relays the user object on 200;
otherwise 401, or 502 on network failure. The upstream body is kept
opaque. -/
def me (req : MeRequest) (upstream : String → Upstream String) : EndpointResult String :=
  if ¬ pyStartsWith (pyLower req.authorization) "bearer " then .fail 401 "Token mancante"
  else
    match upstream (pyPartitionSpace req.authorization).2 with
    | .netFail e => .fail 502 ("Me error: " ++ e)
    | .resp s b => if s ≠ 200 then .fail 401 "Token non valido" else .ok b []

/-- Body of the `logout` response: `{"ok": True, "ts": int(time.time())}`. -/
structure LogoutOut where
  ok : Bool
  ts : Int
deriving DecidableEq

/-- `POST /auth/logout`: clears the refresh cookie and reports ok; no
upstream call, no dependence on any request state. -/
def logout (cfg : CookieCfg) (now : ℚ) : LogoutOut × List SetCookie :=
  ({ ok := true, ts := pyInt now }, [_clear_refresh_cookie cfg])

/- ===================== Token resolver (app/core/security.py) ===================== -/

/-- `ACCESS_COOKIE_NAME` (default `access_token`) followed by the historical
aliases, in priority order. -/
def ALT_ACCESS_NAMES (accessCookieName : String) : List String :=
  [accessCookieName, "sb-access-token", "accessToken", "sb-accessToken"]

/-- The credentials object produced by the framework's bearer scheme. -/
structure HTTPAuthorizationCredentials where
  scheme : String
  credentials : String
deriving DecidableEq

/-- `HTTPBearer(auto_error=False)` applied to the request's optional
`Authorization` header: partition at the first space; yield nothing when
the header, the scheme or the credentials are empty or when the scheme is
not `bearer` case-insensitively. -/
def httpBearer (authorization : Option String) : Option HTTPAuthorizationCredentials :=
  match authorization with
  | none => none
  | some v =>
    let p := pyPartitionSpace v
    if v = "" ∨ p.1 = "" ∨ p.2 = "" then none
    else if pyLower p.1 = "bearer" then some ⟨p.1, p.2⟩ else none

/-- The first truthy value among the recognized cookie names, in order
(the `for name in ALT_ACCESS_NAMES` loop). -/
def firstCookieToken (names : List String) (cookies : List (String × String)) : Option String :=
  match names with
  | [] => none
  | n :: rest =>
    match pyTruthyStr (cookies.lookup n) with
    | some v => some v
    | none => firstCookieToken rest cookies

/-- Token resolution of `get_current_subject` (steps 1 and 2): the bearer
credentials when present, else the first truthy recognized cookie; `none`
triggers the 401 `Token mancante`. -/
def get_current_subject_token (accessCookieName : String) (authorization : Option String)
    (cookies : List (String × String)) : Option String :=
  let token : Option String :=
    match httpBearer authorization with
    | some c => if pyLower c.scheme = "bearer" then some c.credentials else none
    | none => none
  match pyTruthyStr token with
  | some t => some t
  | none => firstCookieToken (ALT_ACCESS_NAMES accessCookieName) cookies

/- ===================== Lemmas: bucket map and limiter steps ===================== -/

theorem bucketsGet_set_self (b : Buckets) (k : RLKey) (v : ℚ × Int) :
    bucketsGet (bucketsSet b k v) k = some v := by
  induction b with
  | nil => simp [bucketsSet, bucketsGet]
  | cons hd tl ih =>
    obtain ⟨k', v'⟩ := hd
    by_cases h : k' = k <;> simp [bucketsSet, bucketsGet, h, ih]

theorem rate_limit_middleware_hit (cfg : RLConfig) (st : Buckets) (ip path : String)
    (now R : ℚ) (c : Int) (hprot : rlPathProtected cfg path = true)
    (hget : bucketsGet st (ip, path) = some (R, c)) (hle : now ≤ R) :
    rate_limit_middleware cfg st ip path now =
      (mkOutcome cfg R (c + 1) now, bucketsSet st (ip, path) (R, c + 1)) := by
  have hngt : ¬ now > R := not_lt.mpr hle
  simp [rate_limit_middleware, hprot, hget, hngt, mkOutcome]
  split <;> rfl

theorem rate_limit_middleware_fresh (cfg : RLConfig) (st : Buckets) (ip path : String)
    (now : ℚ) (hprot : rlPathProtected cfg path = true) (hW : 0 ≤ cfg.windowSec)
    (hget : bucketsGet st (ip, path) = none) :
    rate_limit_middleware cfg st ip path now =
      (mkOutcome cfg (now + (cfg.windowSec : ℚ)) 1 now,
       bucketsSet st (ip, path) (now + (cfg.windowSec : ℚ), 1)) := by
  have hWq : (0 : ℚ) ≤ (cfg.windowSec : ℚ) := by exact_mod_cast hW
  have hngt : ¬ now > now + (cfg.windowSec : ℚ) := not_lt.mpr (le_add_of_nonneg_right hWq)
  simp [rate_limit_middleware, hprot, hget, hngt, mkOutcome]
  split <;> rfl

theorem rlRun_outcomes (cfg : RLConfig) (ip path : String)
    (hprot : rlPathProtected cfg path = true) (R : ℚ) :
    ∀ (ts : List ℚ), (∀ t ∈ ts, t ≤ R) → ∀ (c : Int) (st : Buckets),
      bucketsGet st (ip, path) = some (R, c) →
      (rlRun cfg ip path ts st).1 = outcomesFrom cfg R c ts := by
  intro ts
  induction ts with
  | nil => intro _ c st _; simp [rlRun, outcomesFrom]
  | cons t ts ih =>
    intro hts c st hget
    have hstep := rate_limit_middleware_hit cfg st ip path t R c hprot hget (hts t (by simp))
    have hget' : bucketsGet (bucketsSet st (ip, path) (R, c + 1)) (ip, path) = some (R, c + 1) :=
      bucketsGet_set_self st (ip, path) (R, c + 1)
    have hrest := ih (fun t' ht' => hts t' (by simp [ht'])) (c + 1) _ hget'
    simp [rlRun, hstep, outcomesFrom, hrest]

theorem outcomesFrom_get (cfg : RLConfig) (R : ℚ) :
    ∀ (ts : List ℚ) (c : Int) (i : Nat) (t : ℚ), ts[i]? = some t →
      (outcomesFrom cfg R c ts)[i]? = some (mkOutcome cfg R (c + (i : Int) + 1) t) := by
  intro ts
  induction ts with
  | nil => intro c i t h; simp at h
  | cons a ts ih =>
    intro c i t h
    cases i with
    | zero =>
      simp at h
      subst h
      simp [outcomesFrom]
    | succ j =>
      simp at h
      have hj := ih (c + 1) j t h
      simp only [outcomesFrom, List.getElem?_cons_succ]
      rw [hj]
      push_cast
      ring_nf

theorem mem_of_getElem_opt {α : Type} : ∀ (l : List α) (i : Nat) (a : α), l[i]? = some a → a ∈ l := by
  intro l
  induction l with
  | nil => intro i a h; simp at h
  | cons x xs ih =>
    intro i a h
    cases i with
    | zero => simp at h; subst h; exact List.mem_cons_self x xs
    | succ j => simp at h; exact List.mem_cons_of_mem x (ih j a h)

theorem pyInt_between (q : ℚ) (W : Int) (h0 : 0 ≤ q) (hW : q ≤ (W : ℚ)) :
    0 ≤ pyInt q ∧ pyInt q ≤ W := by
  rw [pyInt, if_pos h0]
  refine ⟨Int.le_floor.mpr (by exact_mod_cast h0), ?_⟩
  calc ⌊q⌋ ≤ ⌊(W : ℚ)⌋ := Int.floor_le_floor hW
    _ = W := Int.floor_intCast W

/-- Claim C4: for every client key and every sequence of requests falling
inside a single rate-limit window, each of the first `maxReq` requests is
forwarded with the remaining-quota and reset-time header values, while the
`(maxReq + 1)`-th request in the same window is rejected with 429 carrying a
remaining-seconds hint between 0 and the window length. -/
theorem rate_limit_window_budget (cfg : RLConfig) (ip path : String) (t0 : ℚ) (ts : List ℚ)
    (hprot : rlPathProtected cfg path = true)
    (hW : 0 ≤ cfg.windowSec)
    (hlen : (ts.length : Int) = cfg.maxReq)
    (hin : ∀ t ∈ ts, t0 ≤ t ∧ t ≤ t0 + (cfg.windowSec : ℚ)) :
    (∀ i : Nat, (i : Int) < cfg.maxReq →
      ((rlRun cfg ip path (t0 :: ts) []).1)[i]? =
        some (.forwarded cfg.maxReq (cfg.maxReq - ((i : Int) + 1))
          (pyInt (t0 + (cfg.windowSec : ℚ))))) ∧
    (∃ h, ((rlRun cfg ip path (t0 :: ts) []).1)[ts.length]? = some (.rejected h) ∧
      0 ≤ h ∧ h ≤ cfg.windowSec) := by
  set R : ℚ := t0 + (cfg.windowSec : ℚ) with hR
  have hWq : (0 : ℚ) ≤ (cfg.windowSec : ℚ) := by exact_mod_cast hW
  have hall : ∀ t ∈ (t0 :: ts), t0 ≤ t ∧ t ≤ R := by
    intro t ht
    rcases List.mem_cons.mp ht with h | h
    · subst h; exact ⟨le_refl t, le_add_of_nonneg_right hWq⟩
    · exact hin t h
  have houts : (rlRun cfg ip path (t0 :: ts) []).1 = outcomesFrom cfg R 0 (t0 :: ts) := by
    have hstep := rate_limit_middleware_fresh cfg [] ip path t0 hprot hW rfl
    have hget' : bucketsGet (bucketsSet [] (ip, path) (R, 1)) (ip, path) = some (R, 1) :=
      bucketsGet_set_self [] (ip, path) (R, 1)
    have hrest := rlRun_outcomes cfg ip path hprot R ts
      (fun t ht => (hall t (List.mem_cons_of_mem _ ht)).2) 1 _ hget'
    simp [rlRun, hstep, outcomesFrom, hrest]
  constructor
  · intro i hi
    have hilen : i < (t0 :: ts).length := by
      have : i < ts.length := by omega
      simp
      omega
    obtain ⟨t, htget⟩ : ∃ t, (t0 :: ts)[i]? = some t :=
      ⟨(t0 :: ts)[i], List.getElem?_eq_getElem hilen⟩
    rw [houts, outcomesFrom_get cfg R (t0 :: ts) 0 i t htget]
    have hcond : ¬ ((0 : Int) + (i : Int) + 1 > cfg.maxReq) := by omega
    have hmax : max 0 (cfg.maxReq - ((0 : Int) + (i : Int) + 1)) = cfg.maxReq - ((i : Int) + 1) := by
      rw [max_eq_right] <;> omega
    simp only [mkOutcome, if_neg hcond, hmax]
  · have hilen : ts.length < (t0 :: ts).length := by simp
    obtain ⟨t, htget⟩ : ∃ t, (t0 :: ts)[ts.length]? = some t :=
      ⟨(t0 :: ts)[ts.length], List.getElem?_eq_getElem hilen⟩
    have htmem : t ∈ (t0 :: ts) := mem_of_getElem_opt (t0 :: ts) ts.length t htget
    obtain ⟨ht0, htR⟩ := hall t htmem
    have hcond : (0 : Int) + (ts.length : Int) + 1 > cfg.maxReq := by omega
    have hsub0 : (0 : ℚ) ≤ R - t := by linarith
    have hsubW : R - t ≤ (cfg.windowSec : ℚ) := by rw [hR]; linarith
    obtain ⟨hb0, hbW⟩ := pyInt_between (R - t) cfg.windowSec hsub0 hsubW
    refine ⟨pyInt (R - t), ?_, hb0, hbW⟩
    rw [houts, outcomesFrom_get cfg R (t0 :: ts) 0 ts.length t htget]
    simp only [mkOutcome, if_pos hcond]

/-- Witness for C4 at a concrete configuration (window 60s, max 2 requests,
protected path `/auth/login`) and request times 0, 1, 2. -/
theorem rate_limit_window_budget_witness :
    (∃ h, ((rlRun ⟨60, 2, ["/auth/login"]⟩ "9.9.9.9" "/auth/login"
        ((0 : ℚ) :: [1, 2]) []).1)[([1, 2] : List ℚ).length]? = some (.rejected h) ∧
      0 ≤ h ∧ h ≤ 60) :=
  (rate_limit_window_budget ⟨60, 2, ["/auth/login"]⟩ "9.9.9.9" "/auth/login" 0 [1, 2]
    (by decide) (by decide) (by decide)
    (by intro t ht; fin_cases ht <;> constructor <;> norm_num)).2

/-- Claim C5: when a matching request arrives at a time strictly past the
stored reset timestamp, the bucket is reset (count 0, reset time now plus
the window) before the request is counted, so the request is accepted as
the first of a fresh window — for every stored count, in particular one
that exhausted the previous window's budget. -/
theorem rate_limit_window_reset (cfg : RLConfig) (st : Buckets) (ip path : String)
    (now R : ℚ) (c : Int)
    (hprot : rlPathProtected cfg path = true)
    (hget : bucketsGet st (ip, path) = some (R, c))
    (hnow : R < now)
    (hmax : 1 ≤ cfg.maxReq) :
    rate_limit_middleware cfg st ip path now =
      (.forwarded cfg.maxReq (max 0 (cfg.maxReq - 1)) (pyInt (now + (cfg.windowSec : ℚ))),
       bucketsSet st (ip, path) (now + (cfg.windowSec : ℚ), 1)) := by
  have hgt : now > R := hnow
  have hcond : ¬ ((0 : Int) + 1 > cfg.maxReq) := by omega
  simp only [rate_limit_middleware, rlPathProtected] at *
  simp [hprot, hget, hgt, hcond]
  exact hmax

/-- Witness for C5: a bucket whose count 99 long exhausted the budget of 10
is reset and the request accepted once the reset time 10 lies in the past. -/
theorem rate_limit_window_reset_witness :
    rate_limit_middleware ⟨60, 10, ["/auth/login"]⟩ [(("7.7.7.7", "/auth/login"), (10, 99))]
        "7.7.7.7" "/auth/login" 20 =
      (.forwarded 10 (max 0 (10 - 1)) (pyInt (20 + ((60 : Int) : ℚ))),
       bucketsSet [(("7.7.7.7", "/auth/login"), (10, 99))] ("7.7.7.7", "/auth/login")
         (20 + ((60 : Int) : ℚ), 1)) :=
  rate_limit_window_reset ⟨60, 10, ["/auth/login"]⟩ [(("7.7.7.7", "/auth/login"), (10, 99))]
    "7.7.7.7" "/auth/login" 20 10 99 (by decide) (by decide) (by norm_num) (by decide)

/-- Claim C10: the bucket count is incremented and stored before the
over-limit check, so a 429-rejected request still consumes the counter;
consequently, for a key whose stored count has exceeded the maximum, every
request arriving at a time not past the stored reset timestamp is rejected
with 429 and leaves the count exceeded again — no request for that key is
accepted until the window resets. -/
theorem rate_limit_reject_persists (cfg : RLConfig) (st : Buckets) (ip path : String)
    (now R : ℚ) (c : Int)
    (hprot : rlPathProtected cfg path = true)
    (hget : bucketsGet st (ip, path) = some (R, c))
    (hnow : now ≤ R)
    (hc : cfg.maxReq < c) :
    rate_limit_middleware cfg st ip path now =
      (.rejected (pyInt (R - now)), bucketsSet st (ip, path) (R, c + 1)) ∧
    bucketsGet (bucketsSet st (ip, path) (R, c + 1)) (ip, path) = some (R, c + 1) ∧
    cfg.maxReq < c + 1 := by
  refine ⟨?_, bucketsGet_set_self st (ip, path) (R, c + 1), by omega⟩
  have hstep := rate_limit_middleware_hit cfg st ip path now R c hprot hget hnow
  rw [hstep]
  have hcond : c + 1 > cfg.maxReq := by omega
  simp [mkOutcome, hcond]

/-- Witness for C10: a bucket at count 11 over a maximum of 10 rejects an
in-window request and stores count 12. -/
theorem rate_limit_reject_persists_witness :
    rate_limit_middleware ⟨60, 10, ["/auth/login"]⟩ [(("8.8.8.8", "/auth/login"), (100, 11))]
        "8.8.8.8" "/auth/login" 50 =
      (.rejected (pyInt ((100 : ℚ) - 50)),
       bucketsSet [(("8.8.8.8", "/auth/login"), (100, 11))] ("8.8.8.8", "/auth/login") (100, 12)) ∧
    bucketsGet
        (bucketsSet [(("8.8.8.8", "/auth/login"), (100, 11))] ("8.8.8.8", "/auth/login") (100, 12))
        ("8.8.8.8", "/auth/login") = some (100, 12) ∧
    (10 : Int) < 12 :=
  rate_limit_reject_persists ⟨60, 10, ["/auth/login"]⟩
    [(("8.8.8.8", "/auth/login"), (100, 11))] "8.8.8.8" "/auth/login" 50 100 11
    (by decide) (by decide) (by norm_num) (by decide)

/- ===================== Session-layer theorems ===================== -/

/-- Claim C7: every token cookie written by the session layer (the
`_set_refresh_cookie` writes performed by login and refresh) has HttpOnly
set, and its Secure attribute is forced on whenever the configured SameSite
policy is `none` (case-insensitively) and is the configured Secure flag
otherwise — for every configuration and every written token. -/
theorem session_cookie_attributes (cfg : CookieCfg) :
    (∀ rt, (_set_refresh_cookie cfg rt).httponly = true ∧
      (pyLower cfg.cookieSamesite = "none" → (_set_refresh_cookie cfg rt).secure = true) ∧
      (pyLower cfg.cookieSamesite ≠ "none" → (_set_refresh_cookie cfg rt).secure = cfg.cookieSecure)) ∧
    (∀ emailRaw password upstream ck,
      ck ∈ ((login cfg emailRaw password upstream).result).cookiesOf →
      ck = _set_refresh_cookie cfg ck.value) ∧
    (∀ bodyToken cookies upstream ck,
      ck ∈ (refresh cfg bodyToken cookies upstream).cookiesOf →
      ck = _set_refresh_cookie cfg ck.value) := by
  refine ⟨?_, ?_, ?_⟩
  · intro rt
    refine ⟨rfl, ?_, ?_⟩
    · intro h; simp [_set_refresh_cookie, h]
    · intro h; simp [_set_refresh_cookie, h]
  · intro emailRaw password upstream ck hck
    cases hu : upstream (norm_email emailRaw) password with
    | netFail e => simp [login, hu, EndpointResult.cookiesOf] at hck
    | resp s b =>
      by_cases hs : s = 200
      · subst hs
        simp [login, hu, EndpointResult.cookiesOf] at hck
        subst hck
        rfl
      · simp [login, hu, hs, EndpointResult.cookiesOf] at hck
  · intro bodyToken cookies upstream ck hck
    cases ht : refresh_request_token cfg bodyToken cookies with
    | none => simp [refresh, ht, EndpointResult.cookiesOf] at hck
    | some t =>
      cases hu : upstream t with
      | netFail e => simp [refresh, ht, hu, EndpointResult.cookiesOf] at hck
      | resp s b =>
        by_cases hs : s = 200
        · subst hs
          cases hr : pyTruthyStr b.refresh_token with
          | none => simp [refresh, ht, hu, hr, EndpointResult.cookiesOf] at hck
          | some nr =>
            simp [refresh, ht, hu, hr, EndpointResult.cookiesOf] at hck
            subst hck
            rfl
        · simp [refresh, ht, hu, hs, EndpointResult.cookiesOf] at hck

/-- Witness for C7: with SameSite configured as `None` and Secure configured
off, the written cookie is HttpOnly and Secure. -/
theorem session_cookie_attributes_witness :
    (_set_refresh_cookie ⟨"refresh_token", false, "None", none, 604800⟩ "tok").httponly = true ∧
    (_set_refresh_cookie ⟨"refresh_token", false, "None", none, 604800⟩ "tok").secure = true :=
  ⟨((session_cookie_attributes ⟨"refresh_token", false, "None", none, 604800⟩).1 "tok").1,
   ((session_cookie_attributes ⟨"refresh_token", false, "None", none, 604800⟩).1 "tok").2.1
     (by decide)⟩

/-- Claim C8, corrected: there is no local/development override — the
cookie attributes come from the `COOKIE_*` configuration variables alone
(defaults SameSite `lax`, Secure off, no domain), with Secure still forced
by SameSite `none`; no environment designation is consulted. -/
theorem cookie_attrs_config_passthrough (env : List (String × String)) (rt : String) :
    (_set_refresh_cookie (cookieCfgOfEnv env) rt).samesite = getenvD env "COOKIE_SAMESITE" "lax" ∧
    (_set_refresh_cookie (cookieCfgOfEnv env) rt).domain = getenv env "COOKIE_DOMAIN" ∧
    ((_set_refresh_cookie (cookieCfgOfEnv env) rt).secure = true ↔
      (pyLower (getenvD env "COOKIE_SECURE" "false") = "true" ∨
       pyLower (getenvD env "COOKIE_SAMESITE" "lax") = "none")) := by
  refine ⟨rfl, rfl, ?_⟩
  simp [_set_refresh_cookie, cookieCfgOfEnv]

/-- Counterexample to C8 as stated: in an environment designated as
development (`ENV=development`) but configured with SameSite `none` and a
cookie domain, the written cookie has SameSite `none`, Secure on and an
explicit domain — not the claimed forced `Lax`/insecure/domainless form. -/
theorem local_env_override_cex :
    getenv [("ENV", "development"), ("COOKIE_SAMESITE", "none"), ("COOKIE_SECURE", "false"),
        ("COOKIE_DOMAIN", ".example.it")] "ENV" = some "development" ∧
    (_set_refresh_cookie
        (cookieCfgOfEnv [("ENV", "development"), ("COOKIE_SAMESITE", "none"),
          ("COOKIE_SECURE", "false"), ("COOKIE_DOMAIN", ".example.it")]) "rt").samesite = "none" ∧
    (_set_refresh_cookie
        (cookieCfgOfEnv [("ENV", "development"), ("COOKIE_SAMESITE", "none"),
          ("COOKIE_SECURE", "false"), ("COOKIE_DOMAIN", ".example.it")]) "rt").secure = true ∧
    (_set_refresh_cookie
        (cookieCfgOfEnv [("ENV", "development"), ("COOKIE_SAMESITE", "none"),
          ("COOKIE_SECURE", "false"), ("COOKIE_DOMAIN", ".example.it")]) "rt").domain =
      some ".example.it" := by
  decide

/-- Claim C9, corrected: logout unconditionally clears the refresh-token
cookie (and only that cookie — the access-token cookie is not cleared),
makes no upstream call, and always succeeds with an ok response for every
configuration and time; as a pure function of `(cfg, now)` it is idempotent
and cannot fail. -/
theorem logout_clears_refresh_only (cfg : CookieCfg) (now : ℚ) :
    (logout cfg now).1.ok = true ∧
    ((logout cfg now).2).map SetCookie.key = [cfg.refreshCookieName] ∧
    (∀ ck ∈ (logout cfg now).2,
      ck.value = "" ∧ ck.maxAge = some 0 ∧ ck.path = COOKIE_PATH ∧ ck.domain = cfg.cookieDomain) := by
  refine ⟨rfl, by simp [logout, _clear_refresh_cookie, deleteCookie], ?_⟩
  intro ck hck
  simp [logout, _clear_refresh_cookie, deleteCookie] at hck
  subst hck
  exact ⟨rfl, rfl, rfl, rfl⟩

/-- Witness for C9 at the default configuration and time 0. -/
theorem logout_clears_refresh_only_witness :
    ((logout defaultCookieCfg 0).2).map SetCookie.key = ["refresh_token"] ∧
    (_clear_refresh_cookie defaultCookieCfg).value = "" :=
  ⟨(logout_clears_refresh_only defaultCookieCfg 0).2.1,
   ((logout_clears_refresh_only defaultCookieCfg 0).2.2 (_clear_refresh_cookie defaultCookieCfg)
     (by decide)).1⟩

/-- Counterexample to C9 as stated: at the default configuration the only
cookie instruction logout emits is for the refresh cookie; no instruction
clears the access-token cookie or any of its recognized aliases. -/
theorem logout_access_cookie_cex :
    ((logout defaultCookieCfg 0).2).map SetCookie.key = ["refresh_token"] ∧
    ∀ ck ∈ (logout defaultCookieCfg 0).2,
      ck.key ≠ "access_token" ∧ ck.key ∉ ALT_ACCESS_NAMES "access_token" := by
  decide

/-- Claim C3, corrected: login normalizes the email (strip then lowercase)
before forwarding the credentials; on a 200 upstream response it returns
the token pair and sets only the refresh-token cookie (HttpOnly, configured
long max age) — no access-token cookie is written; on a non-200 response it
fails with 401, and on a network failure with 502. -/
theorem login_behavior (cfg : CookieCfg) (emailRaw password : String)
    (upstream : String → String → Upstream LoginBody) :
    (login cfg emailRaw password upstream).forwardedEmail = norm_email emailRaw ∧
    (login cfg emailRaw password upstream).forwardedPassword = password ∧
    (∀ e, upstream (norm_email emailRaw) password = .netFail e →
      (login cfg emailRaw password upstream).result = .fail 502 ("Login error: " ++ e)) ∧
    (∀ s b, upstream (norm_email emailRaw) password = .resp s b → s ≠ 200 →
      (login cfg emailRaw password upstream).result =
        .fail 401 (pyFirstTruthy [b.error_description, b.message] "Email o password non valide")) ∧
    (∀ b, upstream (norm_email emailRaw) password = .resp 200 b →
      (login cfg emailRaw password upstream).result =
        .ok { access_token := b.access_token, refresh_token := some b.refresh_token,
              token_type := "bearer", expires_in := b.expires_in }
          [_set_refresh_cookie cfg b.refresh_token] ∧
      ∀ ck ∈ ((login cfg emailRaw password upstream).result).cookiesOf,
        ck.key = cfg.refreshCookieName ∧ ck.maxAge = some cfg.refreshMaxAge ∧
        ck.httponly = true) := by
  refine ⟨rfl, rfl, ?_, ?_, ?_⟩
  · intro e hu; simp [login, hu]
  · intro s b hu hs; simp [login, hu, hs]
  · intro b hu
    refine ⟨by simp [login, hu], ?_⟩
    intro ck hck
    simp [login, hu, EndpointResult.cookiesOf] at hck
    subst hck
    exact ⟨rfl, rfl, rfl⟩

/-- Witness for C3: a successful login at the default configuration returns
the pair and writes the refresh cookie. -/
theorem login_behavior_witness :
    (login defaultCookieCfg " A@B.it " "pw"
        (fun _ _ => .resp 200 ⟨"atok", "rtok", some 3600, none, none⟩)).result =
      .ok { access_token := "atok", refresh_token := some "rtok",
            token_type := "bearer", expires_in := some 3600 }
        [_set_refresh_cookie defaultCookieCfg "rtok"] :=
  ((login_behavior defaultCookieCfg " A@B.it " "pw"
      (fun _ _ => .resp 200 ⟨"atok", "rtok", some 3600, none, none⟩)).2.2.2.2
    ⟨"atok", "rtok", some 3600, none, none⟩ rfl).1

/-- Counterexample to C3 as stated: a successful login writes exactly one
cookie, the refresh-token cookie; no access-token cookie is set. -/
theorem login_access_cookie_cex :
    (login defaultCookieCfg " A@B.it " "pw"
        (fun _ _ => .resp 200 ⟨"atok", "rtok", some 3600, none, none⟩)).forwardedEmail =
      "a@b.it" ∧
    ((login defaultCookieCfg " A@B.it " "pw"
        (fun _ _ => .resp 200 ⟨"atok", "rtok", some 3600, none, none⟩)).result).cookiesOf.map
      SetCookie.key = ["refresh_token"] ∧
    ∀ ck ∈ ((login defaultCookieCfg " A@B.it " "pw"
        (fun _ _ => .resp 200 ⟨"atok", "rtok", some 3600, none, none⟩)).result).cookiesOf,
      ck.key ≠ "access_token" := by
  decide

/-- Claim C2, corrected: refresh resolves the token from the truthy body
field first, else from the configured refresh cookie, failing with 401
`MissingToken` when neither is truthy; on a 200 upstream response it
returns the new pair and rewrites the refresh-token cookie exactly when the
provider issued a truthy new refresh token — no access-token cookie is ever
written; a non-200 upstream response fails with 401. -/
theorem refresh_behavior (cfg : CookieCfg) (bodyToken : Option String)
    (cookies : List (String × String)) (upstream : String → Upstream RefreshBody) :
    (∀ t, t ≠ "" → bodyToken = some t → refresh_request_token cfg bodyToken cookies = some t) ∧
    (refresh_request_token cfg bodyToken cookies = none →
      refresh cfg bodyToken cookies upstream = .fail 401 "Refresh token mancante") ∧
    (∀ t s b, refresh_request_token cfg bodyToken cookies = some t →
      upstream t = .resp s b → s ≠ 200 →
      refresh cfg bodyToken cookies upstream =
        .fail 401 (pyFirstTruthy [b.error_description, b.message] "Refresh token non valido")) ∧
    (∀ t b, refresh_request_token cfg bodyToken cookies = some t → upstream t = .resp 200 b →
      refresh cfg bodyToken cookies upstream =
        .ok { access_token := b.access_token, refresh_token := b.refresh_token,
              token_type := "bearer", expires_in := b.expires_in }
          (match pyTruthyStr b.refresh_token with
           | some nr => [_set_refresh_cookie cfg nr]
           | none => []) ∧
      (∀ ck ∈ (refresh cfg bodyToken cookies upstream).cookiesOf,
        ck.key = cfg.refreshCookieName) ∧
      ((refresh cfg bodyToken cookies upstream).cookiesOf = [] ↔
        pyTruthyStr b.refresh_token = none)) := by
  refine ⟨?_, ?_, ?_, ?_⟩
  · intro t ht hb; subst hb; simp [refresh_request_token, pyTruthyStr, ht]
  · intro h; simp [refresh, h]
  · intro t s b ht hu hs; simp [refresh, ht, hu, hs]
  · intro t b ht hu
    refine ⟨by simp [refresh, ht, hu], ?_, ?_⟩
    · intro ck hck
      cases hr : pyTruthyStr b.refresh_token with
      | none => simp [refresh, ht, hu, hr, EndpointResult.cookiesOf] at hck
      | some nr =>
        simp [refresh, ht, hu, hr, EndpointResult.cookiesOf] at hck
        subst hck
        rfl
    · cases hr : pyTruthyStr b.refresh_token with
      | none => simp [refresh, ht, hu, hr, EndpointResult.cookiesOf]
      | some nr => simp [refresh, ht, hu, hr, EndpointResult.cookiesOf]

/-- Witness for C2: a cookie-resolved refresh with a rotated token rewrites
the refresh cookie. -/
theorem refresh_behavior_witness :
    refresh defaultCookieCfg none [("refresh_token", "r1")]
        (fun _ => .resp 200 ⟨"a2", some "r2", some 3600, none, none⟩) =
      .ok { access_token := "a2", refresh_token := some "r2",
            token_type := "bearer", expires_in := some 3600 }
        [_set_refresh_cookie defaultCookieCfg "r2"] :=
  ((refresh_behavior defaultCookieCfg none [("refresh_token", "r1")]
      (fun _ => .resp 200 ⟨"a2", some "r2", some 3600, none, none⟩)).2.2.2
    "r1" ⟨"a2", some "r2", some 3600, none, none⟩ (by decide) rfl).1

/-- Counterexample to C2 as stated: a successful refresh writes only the
refresh-token cookie; no access-token cookie is overwritten. -/
theorem refresh_access_cookie_cex :
    (refresh defaultCookieCfg none [("refresh_token", "r1")]
        (fun _ => .resp 200 ⟨"a2", some "r2", some 3600, none, none⟩)).cookiesOf.map
      SetCookie.key = ["refresh_token"] ∧
    ∀ ck ∈ (refresh defaultCookieCfg none [("refresh_token", "r1")]
        (fun _ => .resp 200 ⟨"a2", some "r2", some 3600, none, none⟩)).cookiesOf,
      ck.key ≠ "access_token" := by
  decide

/-- Claim C1, corrected: WhoAmI reads only the Authorization header — its
result never depends on the request cookies and no transparent refresh is
attempted; when the header does not start case-insensitively with
`"bearer "` it fails with 401 `MissingToken`; otherwise the part after the
first space is forwarded to the provider's current-user endpoint, a non-200
response fails with 401 `InvalidToken`, a network failure with 502, and a
200 response yields the user object with no cookie updates. -/
theorem me_behavior (req : MeRequest) (upstream : String → Upstream String) :
    (pyStartsWith (pyLower req.authorization) "bearer " = false →
      me req upstream = .fail 401 "Token mancante") ∧
    (∀ cookies', me { req with cookies := cookies' } upstream = me req upstream) ∧
    (pyStartsWith (pyLower req.authorization) "bearer " = true →
      (∀ e, upstream (pyPartitionSpace req.authorization).2 = .netFail e →
        me req upstream = .fail 502 ("Me error: " ++ e)) ∧
      (∀ s b, upstream (pyPartitionSpace req.authorization).2 = .resp s b → s ≠ 200 →
        me req upstream = .fail 401 "Token non valido") ∧
      (∀ b, upstream (pyPartitionSpace req.authorization).2 = .resp 200 b →
        me req upstream = .ok b [])) := by
  refine ⟨?_, ?_, ?_⟩
  · intro h; simp [me, h]
  · intro cookies'; rfl
  · intro h
    refine ⟨?_, ?_, ?_⟩
    · intro e hu; simp [me, h, hu]
    · intro s b hu hs; simp [me, h, hu, hs]
    · intro b hu; simp [me, h, hu]

/-- Witness for C1: a well-formed bearer header reaches the provider and
returns the user object. -/
theorem me_behavior_witness :
    me ⟨"Bearer tok", []⟩ (fun _ => .resp 200 "user-object") = .ok "user-object" [] :=
  ((me_behavior ⟨"Bearer tok", []⟩ (fun _ => .resp 200 "user-object")).2.2 (by decide)).2.2
    "user-object" rfl

/-- Counterexample to C1 as stated: a request with no Authorization header
but with non-empty access and refresh cookies — which the Token Resolver
would resolve, and whose refresh the provider would accept — still fails
with 401 `Token mancante`: the handler never consults cookies and never
attempts a transparent refresh. -/
theorem me_ignores_cookies_cex :
    get_current_subject_token "access_token" none
        [("access_token", "atok"), ("refresh_token", "rtok")] = some "atok" ∧
    me ⟨"", [("access_token", "atok"), ("refresh_token", "rtok")]⟩
        (fun _ => .resp 200 "user-object") = .fail 401 "Token mancante" := by
  decide

/- ===================== Token-resolver theorems (app/core/security.py) ===================== -/

theorem httpBearer_fields (a : Option String) (c : HTTPAuthorizationCredentials)
    (h : httpBearer a = some c) : pyLower c.scheme = "bearer" ∧ c.credentials ≠ "" := by
  cases a with
  | none => simp [httpBearer] at h
  | some v =>
    simp only [httpBearer] at h
    split_ifs at h with h1 h2
    · cases h
      push_neg at h1
      exact ⟨h2, h1.2.2⟩

theorem firstCookieToken_eq_none (names : List String) (cookies : List (String × String)) :
    firstCookieToken names cookies = none ↔
      ∀ n ∈ names, pyTruthyStr (cookies.lookup n) = none := by
  induction names with
  | nil => simp [firstCookieToken]
  | cons n rest ih =>
    simp only [firstCookieToken]
    cases h : pyTruthyStr (cookies.lookup n) with
    | some v => simp [h]
    | none => simp [h, ih]

/-- Claim C6, corrected: the token resolver returns the bearer credentials
whenever the framework's bearer scheme accepts the header — which requires
the part after the first space to be non-empty, so a bare `"Bearer "`
header instead falls through to the cookies; otherwise it returns the first
non-empty value among the recognized cookie names in priority order; and it
yields no token exactly when the header yields no credentials and no
recognized cookie is non-empty. -/
theorem get_current_subject_token_spec (name : String) (authorization : Option String)
    (cookies : List (String × String)) :
    (∀ c, httpBearer authorization = some c →
      get_current_subject_token name authorization cookies = some c.credentials) ∧
    (httpBearer authorization = none →
      get_current_subject_token name authorization cookies =
        firstCookieToken (ALT_ACCESS_NAMES name) cookies) ∧
    (get_current_subject_token name authorization cookies = none ↔
      httpBearer authorization = none ∧
      ∀ n ∈ ALT_ACCESS_NAMES name, pyTruthyStr (cookies.lookup n) = none) := by
  refine ⟨?_, ?_, ?_⟩
  · intro c hc
    obtain ⟨hsch, hcred⟩ := httpBearer_fields authorization c hc
    simp [get_current_subject_token, hc, hsch, pyTruthyStr, hcred]
  · intro hc
    simp [get_current_subject_token, hc, pyTruthyStr]
  · cases hc : httpBearer authorization with
    | some c =>
      obtain ⟨hsch, hcred⟩ := httpBearer_fields authorization c hc
      simp [get_current_subject_token, hc, hsch, pyTruthyStr, hcred]
    | none =>
      simp [get_current_subject_token, hc, pyTruthyStr,
        firstCookieToken_eq_none (ALT_ACCESS_NAMES name) cookies]

/-- Witness for C6: with no Authorization header the resolver falls to the
recognized cookie list. -/
theorem get_current_subject_token_spec_witness :
    get_current_subject_token "access_token" none [("sb-access-token", "tok")] =
      firstCookieToken (ALT_ACCESS_NAMES "access_token") [("sb-access-token", "tok")] :=
  (get_current_subject_token_spec "access_token" none [("sb-access-token", "tok")]).2.1 rfl

/-- Counterexample to C6 as stated: the header `"Bearer "` does begin
case-insensitively with `"Bearer "` but its remainder is empty, and the
resolver returns the access cookie's value rather than that remainder. -/
theorem bearer_empty_remainder_cex :
    pyStartsWith (pyLower "Bearer ") "bearer " = true ∧
    (pyPartitionSpace "Bearer ").2 = "" ∧
    get_current_subject_token "access_token" (some "Bearer ")
      [("access_token", "ctok")] = some "ctok" := by
  decide
